import Mathlib

/-!
Shallow embedding of the Flask smart-contract backend
(`app.py`, the `ContractHandler` class and the `Config` class).

Blockchain/network effects (web3 calls) are modelled by an environment
record `Env` of oracles; a call that can raise in Python is an oracle
returning `Except String α`, the `String` being the exception's message
(`str(e)`).  Python `float` values are modelled by `PyFloat`: exact
rationals plus `nan` / `inf` / `-inf` (binary64 rounding of literals and
arithmetic is not modelled; it does not affect the sign/NaN tests the
code performs on the magnitudes used here).  Python `decimal.Decimal`
values are modelled by `Dec` (coefficient and exponent), and division is
modelled after CPython `_pydecimal` with the default context
(precision 28, ROUND_HALF_EVEN).
-/

namespace CertApi

/-- Model of a Python `float`: an exact rational or a special value. -/
inductive PyFloat where
  | finite (q : ℚ)
  | nan
  | inf
  | ninf
deriving DecidableEq, Repr

/-- Decimal digits of a natural number, most significant first
(`numDigitsAux (n+1) n` terminates because the value shrinks by 10 each
step). `numDigits 0 = 1`, matching `len(str(coeff))` on coefficients. -/
def numDigitsAux : ℕ → ℕ → ℕ
  | 0, _ => 0
  | fuel + 1, n => if n < 10 then 1 else numDigitsAux fuel (n / 10) + 1

/-- Number of decimal digits of `n` (with `numDigits 0 = 1`). -/
def numDigits (n : ℕ) : ℕ := numDigitsAux (n + 1) n

/-- A (non-negative) Python `Decimal` value: `coeff * 10 ^ exp`.
A `Dec` stands for the string `str()` produces for it, which determines
and is determined by the pair (coefficient, exponent). -/
structure Dec where
  coeff : ℕ
  exp : ℤ
deriving DecidableEq, Repr

/-- Model of a JSON value as Flask's `request.get_json()` produces it
(Python `dict`s are association lists with distinct keys; numbers are
Python ints/floats, both carried as `PyFloat`).  The `dec` constructor
stands for the string `str()` produces for a `Decimal` value, which the
pair (coefficient, exponent) determines uniquely. -/
inductive JValue where
  | null
  | bool (b : Bool)
  | num (x : PyFloat)
  | str (s : String)
  | dec (d : Dec)
  | obj (fields : List (String × JValue))
  | arr (elems : List JValue)

/-- The underlying string of a `JValue` known to be a string
(`""` junk otherwise); used after `is_valid_address` has succeeded,
which forces the string case. -/
def JValue.asStr : JValue → String
  | .str s => s
  | _ => ""

/-- The rational value denoted by a `Dec`. -/
def Dec.toRat (d : Dec) : ℚ := (d.coeff : ℚ) * (10 : ℚ) ^ d.exp

/-- `_pydecimal`'s exact-quotient normalisation: while the exponent is
below the ideal exponent 0 and the coefficient ends in 0, shift a zero
from the coefficient into the exponent. -/
def reduceExact : ℕ → ℕ → ℤ → Dec
  | 0, c, e => ⟨c, e⟩
  | fuel + 1, c, e =>
    if e < 0 ∧ c % 10 = 0 then reduceExact fuel (c / 10) (e + 1) else ⟨c, e⟩

/-- `_pydecimal._fix` for our values: round the coefficient to at most
`prec` digits with ROUND_HALF_EVEN, adjusting the exponent. -/
def fixPrec (prec : ℕ) (c : ℕ) (e : ℤ) : Dec :=
  let d := numDigits c
  if d ≤ prec then ⟨c, e⟩
  else
    let drop := d - prec
    let p := 10 ^ drop
    let q := c / p
    let r := c % p
    let q1 := if 2 * r > p ∨ (2 * r = p ∧ q % 2 = 1) then q + 1 else q
    if numDigits q1 > prec then ⟨q1 / 10, e + drop + 1⟩ else ⟨q1, e + drop⟩

/-- Model of `Decimal(a) / Decimal(b)` for naturals `a`, `b` (both of
exponent 0, as produced by `Decimal(int)`), following CPython
`_pydecimal.Decimal.__truediv__` at context precision `prec`:
compute `prec + 1` significant digits, nudge the last digit off a
multiple of 5 when the division is inexact, normalise exact quotients
toward the ideal exponent 0, then round to `prec` digits half-even.
Returns 0 for the (unreachable here) divisor 0. -/
def decDivide (prec a b : ℕ) : Dec :=
  if b = 0 then ⟨0, 0⟩
  else if a = 0 then ⟨0, 0⟩
  else
    let shift : ℤ := (numDigits b : ℤ) - (numDigits a : ℤ) + prec + 1
    let (coeff, rem) :=
      if 0 ≤ shift then ((a * 10 ^ shift.toNat) / b, (a * 10 ^ shift.toNat) % b)
      else (a / (b * 10 ^ (-shift).toNat), a % (b * 10 ^ (-shift).toNat))
    let e : ℤ := -shift
    if rem ≠ 0 then
      fixPrec prec (if coeff % 5 = 0 then coeff + 1 else coeff) e
    else
      let d := reduceExact shift.toNat coeff e
      fixPrec prec d.coeff d.exp

/-- Decimal digit characters of `n`, most significant first. -/
def natDigitsAux : ℕ → ℕ → List Char → List Char
  | 0, _, acc => acc
  | fuel + 1, n, acc =>
    let c := Char.ofNat (48 + n % 10)
    if n < 10 then c :: acc else natDigitsAux fuel (n / 10) (c :: acc)

/-- Decimal string of a natural number (model of Python `str(int)` for
non-negative values). -/
def natToStr (n : ℕ) : String := String.mk (natDigitsAux (n + 1) n [])

/-- Round `num / den` (with `den > 0`) to the nearest integer, ties to
even — the rounding used by `%.Nf` formatting. -/
def roundHalfEvenInt (num den : ℤ) : ℤ :=
  let q := num.fdiv den
  let r := num.fmod den
  if 2 * r > den ∨ (2 * r = den ∧ q % 2 ≠ 0) then q + 1 else q

/-- Zero-pad the decimal string of `n` on the left to `places` digits. -/
def padZeros (places : ℕ) (n : ℕ) : String :=
  let s := natToStr n
  String.mk (List.replicate (places - s.length) (Char.ofNat 48)) ++ s

/-- Model of Python fixed-point formatting `f"{q:.{places}f}"` of a
numeric value `q` (binary64 rounding of the intermediate float is not
modelled; rounding of the decimal value is half-even). -/
def formatFixed (places : ℕ) (q : ℚ) : String :=
  let scaled := roundHalfEvenInt (q.num * (10 : ℤ) ^ places) (q.den : ℤ)
  let sign := if scaled < 0 then "-" else ""
  let n := scaled.natAbs
  sign ++ natToStr (n / 10 ^ places) ++ "." ++ padZeros places (n % 10 ^ places)

/-- Value of a non-empty list of decimal digit characters, `none` if any
character is not a digit or the list is empty. -/
def digitsVal : List Char → Option ℕ
  | [] => none
  | cs => cs.foldl (fun acc c =>
      match acc with
      | none => none
      | some v => if c.isDigit then some (v * 10 + (c.toNat - 48)) else none)
      (some 0)

/-- Split a character list at the first occurrence of any of the given
characters, returning the parts before and after (without the
separator); `none` if no separator occurs. -/
def splitAtChar (seps : List Char) : List Char → Option (List Char × List Char)
  | [] => none
  | c :: cs =>
    if seps.contains c then some ([], cs)
    else match splitAtChar seps cs with
      | none => none
      | some (l, r) => some (c :: l, r)

/-- Parse the mantissa part of a float literal: `digits`, `digits.digits`,
`digits.`, or `.digits`. -/
def parseMantissa (cs : List Char) : Option ℚ :=
  match splitAtChar [Char.ofNat 46] cs with
  | none => (digitsVal cs).map (fun n => (n : ℚ))
  | some (ip, fp) =>
    if ip.isEmpty ∧ fp.isEmpty then none
    else
      match digitsVal (if ip.isEmpty then [Char.ofNat 48] else ip),
            digitsVal (if fp.isEmpty then [Char.ofNat 48] else fp) with
      | some i, some f => some ((i : ℚ) + (f : ℚ) / (10 : ℚ) ^ fp.length)
      | _, _ => none

/-- Strip one optional leading sign, returning (negative?, rest). -/
def stripSign : List Char → Bool × List Char
  | c :: cs =>
    if c = Char.ofNat 45 then (true, cs)
    else if c = Char.ofNat 43 then (false, cs)
    else (false, c :: cs)
  | [] => (false, [])

/-- ASCII lower-casing of one character (the inputs float() and the
address comparison care about are ASCII). -/
def lowerChar (c : Char) : Char :=
  if 65 ≤ c.toNat ∧ c.toNat ≤ 90 then Char.ofNat (c.toNat + 32) else c

/-- Whitespace as stripped by Python's float() / str.strip(). -/
def isSpaceChar (c : Char) : Bool :=
  c.toNat = 32 ∨ c.toNat = 9 ∨ c.toNat = 10 ∨ c.toNat = 13 ∨
  c.toNat = 11 ∨ c.toNat = 12

/-- Strip leading and trailing whitespace from a character list. -/
def trimChars (cs : List Char) : List Char :=
  ((cs.dropWhile isSpaceChar).reverse.dropWhile isSpaceChar).reverse

/-- Model of Python `str.lower()` (ASCII range). -/
def lowerStr (s : String) : String :=
  String.mk (s.toList.map lowerChar)

/-- Model of Python `float(str)`: optional surrounding whitespace and
sign, then `nan`, `inf`, `infinity` (case-insensitive) or a decimal
literal with optional fraction and exponent.  (Digit-group underscores
and the rounding of the decimal literal to binary64 are not modelled.) -/
def parsePyFloat (s : String) : Option PyFloat :=
  let cs := trimChars (s.toList.map lowerChar)
  let (neg, cs) := stripSign cs
  if cs = "nan".toList then some .nan
  else if cs = "inf".toList ∨ cs = "infinity".toList then
    some (if neg then .ninf else .inf)
  else
    let mq : Option ℚ :=
      match splitAtChar [Char.ofNat 101] cs with
      | none => parseMantissa cs
      | some (m, ex) =>
        let (eneg, ed) := stripSign ex
        match parseMantissa m, digitsVal ed with
        | some q, some e =>
          some (q * (10 : ℚ) ^ (if eneg then -(e : ℤ) else (e : ℤ)))
        | _, _ => none
    mq.map (fun q => .finite (if neg then -q else q))

/-- Model of Python `float(x)` on a JSON value: numbers pass through,
strings are parsed, booleans become 0/1; `None`, objects and arrays
raise `TypeError` (`none`). -/
def toFloat : JValue → Option PyFloat
  | .num x => some x
  | .str s => parsePyFloat s
  | .bool b => some (.finite (if b then 1 else 0))
  | _ => none

/-- Python `x <= 0` on a float: false for NaN and `+inf`. -/
def PyFloat.le0 : PyFloat → Bool
  | .finite q => q ≤ 0
  | .nan => false
  | .inf => false
  | .ninf => true

/-- Python `x * n` for a float `x` and non-negative int `n`. -/
def PyFloat.mulNat : PyFloat → ℕ → PyFloat
  | .finite q, n => .finite (q * n)
  | .nan, _ => .nan
  | .inf, n => if n = 0 then .nan else .inf
  | .ninf, n => if n = 0 then .nan else .ninf

/-- Python `int(x)` on a float: truncation toward zero; raises
`ValueError` on NaN and `OverflowError` on infinities. -/
def pyInt : PyFloat → Except String ℤ
  | .finite q => .ok (q.num / (q.den : ℤ))
  | .nan => .error "cannot convert float NaN to integer"
  | .inf => .error "cannot convert float infinity to integer"
  | .ninf => .error "cannot convert float infinity to integer"

/-- The inline amount validation shared by the mint/transfer/burn
handlers: `amount = float(amount); if amount <= 0: raise ValueError`,
with `ValueError`/`TypeError` mapped to `none` (the 400 branch). -/
def amountCheck (v : JValue) : Option PyFloat :=
  match toFloat v with
  | none => none
  | some f => if f.le0 then none else some f

/-- Approximate Python `str()` of a JSON value, used only inside
f-string error messages (float and container reprs are approximated;
no claim depends on those cases). -/
def pyStr : JValue → String
  | .null => "None"
  | .bool b => if b then "True" else "False"
  | .num (.finite q) => formatFixed 1 q
  | .num .nan => "nan"
  | .num .inf => "inf"
  | .num .ninf => "-inf"
  | .str s => s
  | .dec _ => "Decimal"
  | .obj _ => "dict"
  | .arr _ => "list"

/-- Python type name of a JSON value (for the `**params` TypeError). -/
def pyTypeName : JValue → String
  | .null => "NoneType"
  | .bool _ => "bool"
  | .num (.finite _) => "float"
  | .num _ => "float"
  | .str _ => "str"
  | .dec _ => "Decimal"
  | .obj _ => "dict"
  | .arr _ => "list"

/-- The contract call a transaction carries (`mint(to, amount)`,
`transfer(to, amount)`, `burn(amount)`), amounts in wei. -/
inductive TxCall where
  | mint (toA : String) (amountWei : ℤ)
  | transfer (toA : String) (amountWei : ℤ)
  | burn (amountWei : ℤ)
deriving DecidableEq, Repr, Inhabited

/-- The transaction dict passed to `build_transaction` (and then signed
and sent): sender, gas limit, gas price and nonce, plus the contract
call. -/
structure BuiltTx where
  call : TxCall
  from_addr : String
  gas : ℕ
  gasPrice : ℕ
  nonce : ℕ
deriving DecidableEq, Repr, Inhabited

/-- Default values of `Config` (`config.py` with no overriding
environment variables). -/
def Config.GAS_PRICE_MULTIPLIER : ℚ := 11 / 10

/-- `Config.DEFAULT_GAS_LIMIT` default. -/
def Config.DEFAULT_GAS_LIMIT : ℕ := 200000

/-- A transaction receipt as returned by `get_transaction_receipt`. -/
structure Receipt where
  status : ℕ
  blockNumber : ℕ
  gasUsed : ℕ
  transactionIndex : ℕ

/-- The fields of `get_transaction(tx_hash)` the code reads
(`to` is `None` for contract-creation transactions). -/
structure TxInfo where
  sender : String
  toAddr : Option String
  value : ℕ
  gas : ℕ
  gasPriceWei : ℕ

/-- The environment of external (web3 / blockchain / key-library)
effects the `ContractHandler` delegates to.  Each oracle that can raise
in Python returns `Except String α` carrying the exception message. -/
structure Env where
  /-- `w3.is_address(a) and w3.is_checksum_address(a)` for a string. -/
  isValidAddress : String → Bool
  /-- `contract.functions.name().call()`. -/
  tokenName : Except String String
  /-- `contract.functions.symbol().call()`. -/
  tokenSymbol : Except String String
  /-- `contract.functions.totalSupply().call()`. -/
  totalSupply : Except String ℕ
  /-- `contract.functions.decimals().call()`. -/
  decimals : Except String ℕ
  /-- `contract.functions.balanceOf(a).call()`. -/
  balanceOf : String → Except String ℕ
  /-- `w3.eth.gas_price`. -/
  gasPriceWei : Except String ℕ
  /-- `w3.eth.get_transaction_count(addr)`. -/
  transactionCount : String → Except String ℕ
  /-- `self.account.address` when an owner account is configured. -/
  account : Option String
  /-- `w3.eth.account.from_key(pk).address`. -/
  fromKey : String → Except String String
  /-- `sign_transaction` + `send_raw_transaction`, returning the hash. -/
  send : BuiltTx → Except String String
  /-- `contract.functions.mint(to, amount).estimate_gas({'from': acct})`. -/
  estimateMint : JValue → JValue → String → Except String ℕ
  /-- `contract.functions.transfer(to, amount).estimate_gas({'from': f})`. -/
  estimateTransfer : JValue → JValue → JValue → Except String ℕ
  /-- `contract.functions.burn(amount).estimate_gas({'from': f})`. -/
  estimateBurn : JValue → JValue → Except String ℕ
  /-- `w3.eth.get_transaction_receipt(tx_hash)`. -/
  getReceipt : String → Except String Receipt
  /-- `w3.eth.get_transaction(tx_hash)`. -/
  getTransaction : String → Except String TxInfo

namespace ContractHandler

/-- `ContractHandler.is_valid_address` applied to an arbitrary JSON
value: `w3.is_address` is false on every non-string. -/
def is_valid_address (env : Env) : JValue → Bool
  | .str s => env.isValidAddress s
  | _ => false

/-- `ContractHandler.get_balance`: `balanceOf` in wei divided by
`10 ** decimals` as `Decimal`s (default context, see `decDivide`). -/
def get_balance (env : Env) (address : String) : Except String Dec := do
  let wei ← env.balanceOf address
  let d ← env.decimals
  pure (decDivide 28 wei (10 ^ d))

/-- `ContractHandler.get_token_info` (the `formatted_total_supply`
float division is modelled exactly; binary64 rounding is not). -/
def get_token_info (env : Env) (contractAddress : String) :
    Except String (List (String × JValue)) := do
  let n ← env.tokenName
  let s ← env.tokenSymbol
  let t ← env.totalSupply
  let d ← env.decimals
  pure [("name", .str n), ("symbol", .str s),
        ("total_supply", .str (natToStr t)),
        ("formatted_total_supply", .str (formatFixed 4 ((t : ℚ) / (10 : ℚ) ^ d))),
        ("decimals", .num (.finite d)),
        ("contract_address", .str contractAddress)]

/-- The common sign-and-send tail of the three transaction methods:
an exception while building propagates, otherwise the built transaction
is signed and sent.  The second component records the transaction(s)
handed to sign-and-send, for specification purposes. -/
def sendStage (env : Env) (pre : Except String BuiltTx) :
    Except String String × List BuiltTx :=
  match pre with
  | .error e => (.error e, [])
  | .ok tx => (env.send tx, [tx])

/-- The transaction-building prefix of `ContractHandler.mint_tokens`
(`if not self.account: raise ValueError(...)`, then decimals, wei
conversion, and the `build_transaction` dict). -/
def mint_build (env : Env) (to_address : String) (amount : PyFloat) :
    Except String BuiltTx :=
  match env.account with
  | none => Except.error "No account configured for minting"
  | some acct => do
    let d ← env.decimals
    let amount_wei ← pyInt (amount.mulNat (10 ^ d))
    let gp ← env.gasPriceWei
    let nonce ← env.transactionCount acct
    pure ⟨.mint to_address amount_wei, acct, 200000, gp, nonce⟩

/-- `ContractHandler.mint_tokens`, returning the transaction hash and
the list of transactions handed to sign-and-send. -/
def mint_tokens (env : Env) (to_address : String) (amount : PyFloat) :
    Except String String × List BuiltTx :=
  sendStage env (mint_build env to_address amount)

/-- The transaction-building prefix of
`ContractHandler.transfer_tokens`. -/
def transfer_build (env : Env) (from_address to_address : String)
    (amount : PyFloat) (private_key : String) : Except String BuiltTx := do
  let sender ← env.fromKey private_key
  if lowerStr sender ≠ lowerStr from_address then
    Except.error "Private key does not match sender address"
  else do
    let d ← env.decimals
    let amount_wei ← pyInt (amount.mulNat (10 ^ d))
    let gp ← env.gasPriceWei
    let nonce ← env.transactionCount sender
    pure ⟨.transfer to_address amount_wei, sender, 100000, gp, nonce⟩

/-- `ContractHandler.transfer_tokens`. -/
def transfer_tokens (env : Env) (from_address to_address : String)
    (amount : PyFloat) (private_key : String) :
    Except String String × List BuiltTx :=
  sendStage env (transfer_build env from_address to_address amount private_key)

/-- The transaction-building prefix of `ContractHandler.burn_tokens`. -/
def burn_build (env : Env) (from_address : String) (amount : PyFloat)
    (private_key : String) : Except String BuiltTx := do
  let burner ← env.fromKey private_key
  if lowerStr burner ≠ lowerStr from_address then
    Except.error "Private key does not match burner address"
  else do
    let d ← env.decimals
    let amount_wei ← pyInt (amount.mulNat (10 ^ d))
    let gp ← env.gasPriceWei
    let nonce ← env.transactionCount burner
    pure ⟨.burn amount_wei, burner, 100000, gp, nonce⟩

/-- `ContractHandler.burn_tokens`. -/
def burn_tokens (env : Env) (from_address : String) (amount : PyFloat)
    (private_key : String) : Except String String × List BuiltTx :=
  sendStage env (burn_build env from_address amount private_key)

/-- `ContractHandler.get_transaction_status`: total — both lookups are
wrapped in bare `except` clauses. -/
def get_transaction_status (env : Env) (tx_hash : String) :
    List (String × JValue) :=
  let rcpt := env.getReceipt tx_hash
  let status := match rcpt with
    | .ok r => if r.status = 1 then "success" else "failed"
    | .error _ => "pending"
  let base := [("hash", JValue.str tx_hash), ("status", JValue.str status)]
  let withReceipt := base ++ (match rcpt with
    | .ok r => [("block_number", JValue.num (.finite r.blockNumber)),
                ("gas_used", JValue.num (.finite r.gasUsed)),
                ("transaction_index", JValue.num (.finite r.transactionIndex))]
    | .error _ => [])
  withReceipt ++ (match env.getTransaction tx_hash with
    | .ok t => [("from", JValue.str t.sender),
                ("to", match t.toAddr with
                  | some a => JValue.str a
                  | none => JValue.null),
                ("value", JValue.str (natToStr t.value)),
                ("gas", JValue.num (.finite t.gas)),
                ("gas_price", JValue.str (natToStr t.gasPriceWei))]
    | .error _ => [])

end ContractHandler

/-- Key membership in a JSON object (Python `'k' in data`). -/
def hasKey (fields : List (String × JValue)) (k : String) : Bool :=
  (fields.lookup k).isSome

/-- `data['k']` for a key known to be present (`.null` junk otherwise). -/
def getKey (fields : List (String × JValue)) (k : String) : JValue :=
  (fields.lookup k).getD .null

/-- `kwargs['k']`: `KeyError` stringifies with quotes around the key. -/
def kwGet (params : List (String × JValue)) (k : String) :
    Except String JValue :=
  match params.lookup k with
  | some v => .ok v
  | none => .error ("'" ++ k ++ "'")

namespace ContractHandler

/-- `ContractHandler.estimate_gas(function_name, **kwargs)`.
`function_name` is compared against the three known names (a non-string
value equals none of them); kwargs are read in the order the Python
expressions evaluate them.  The `functions.<f>(...).estimate_gas(...)`
pipeline is a single oracle per function; `self.account.address` with no
account raises `AttributeError` (orderings among multiple simultaneous
failures inside one pipeline are not distinguished). -/
def estimate_gas (env : Env) (function_name : JValue)
    (params : List (String × JValue)) : Except String ℕ :=
  match function_name with
  | .str s =>
    if s = "mint" then do
      let toV ← kwGet params "to_address"
      let amt ← kwGet params "amount"
      let acct ← match env.account with
        | none => Except.error "'NoneType' object has no attribute 'address'"
        | some a => Except.ok a
      env.estimateMint toV amt acct
    else if s = "transfer" then do
      let toV ← kwGet params "to_address"
      let amt ← kwGet params "amount"
      let frm ← kwGet params "from_address"
      env.estimateTransfer toV amt frm
    else if s = "burn" then do
      let amt ← kwGet params "amount"
      let frm ← kwGet params "from_address"
      env.estimateBurn amt frm
    else
      .error ("Unknown function: " ++ s)
  | v => .error ("Unknown function: " ++ pyStr v)

/-- `ContractHandler.calculate_gas_cost`: gas times `w3.eth.gas_price`,
converted from wei to ether and formatted `%.8f`; any failure is caught
and `"0.0"` returned. -/
def calculate_gas_cost (env : Env) (gas_amount : ℕ) : String :=
  match env.gasPriceWei with
  | .error _ => "0.0"
  | .ok gp => formatFixed 8 (((gas_amount * gp : ℕ) : ℚ) / (10 : ℚ) ^ (18 : ℕ))

end ContractHandler

/-- An HTTP response: status code and JSON object body. -/
structure HttpResponse where
  status : ℕ
  body : List (String × JValue)

/-- The 400 validation-rejection envelope. -/
def resp400 (msg : String) : HttpResponse :=
  ⟨400, [("success", .bool false), ("error", .str msg)]⟩

/-- The 500 caught-exception envelope of the per-route handlers. -/
def resp500 (msg : String) : HttpResponse :=
  ⟨500, [("success", .bool false), ("error", .str msg)]⟩

/-- The 200 success envelope. -/
def resp200 (data : List (String × JValue)) : HttpResponse :=
  ⟨200, [("success", .bool true), ("data", .obj data)]⟩

/-- A request body: `none` models `request.get_json()` returning `None`;
object bodies are association lists.  (Non-object JSON bodies are not
modelled; every endpoint of this API takes an object.) -/
abbrev ReqBody := Option (List (String × JValue))

/-- Python `not data or 'k1' not in data or ...` for the required-field
guards: falsy (`None` or empty dict) or any listed key absent. -/
def missingFields (data : ReqBody) (ks : List String) : Bool :=
  match data with
  | none => true
  | some fields => fields.isEmpty || ks.any (fun k => !(hasKey fields k))

namespace app

/-- `handle_error`, the global Flask error handler. -/
def handle_error (msg : String) : HttpResponse :=
  ⟨500, [("success", .bool false), ("error", .str msg),
         ("message", .str "An unexpected error occurred")]⟩

/-- `GET /` (`health_check`). -/
def health_check : HttpResponse :=
  ⟨200, [("success", .bool true),
         ("message", .str "Smart Contract Backend API is running"),
         ("version", .str "1.0.0")]⟩

/-- `GET /api/token/info` (`get_token_info`). -/
def get_token_info (env : Env) (contractAddress : String) : HttpResponse :=
  match ContractHandler.get_token_info env contractAddress with
  | .ok info => resp200 info
  | .error e => resp500 e

/-- `GET /api/balance/<address>` (`get_balance`). -/
def get_balance (env : Env) (address : String) : HttpResponse :=
  if !env.isValidAddress address then
    resp400 "Invalid Ethereum address"
  else
    match ContractHandler.get_balance env address with
    | .ok bal =>
      resp200 [("address", .str address), ("balance", .dec bal),
               ("formatted_balance", .str (formatFixed 4 bal.toRat))]
    | .error e => resp500 e

/-- `POST /api/mint` (`mint_tokens`).  The second component is the list
of transactions handed to sign-and-send. -/
def mint_tokens (env : Env) (data : ReqBody) : HttpResponse × List BuiltTx :=
  if missingFields data ["to_address", "amount"] then
    (resp400 "Missing required fields: to_address, amount", [])
  else
    let fields := data.getD []
    let to_address := getKey fields "to_address"
    let amountJ := getKey fields "amount"
    if !ContractHandler.is_valid_address env to_address then
      (resp400 "Invalid recipient address", [])
    else
      match amountCheck amountJ with
      | none => (resp400 "Invalid amount", [])
      | some amount =>
        match ContractHandler.mint_tokens env to_address.asStr amount with
        | (.ok h, txs) =>
          (resp200 [("transaction_hash", .str h),
                    ("to_address", to_address), ("amount", .num amount),
                    ("message", .str "Mint transaction submitted successfully")],
           txs)
        | (.error e, txs) => (resp500 e, txs)

/-- `POST /api/transfer` (`transfer_tokens`). -/
def transfer_tokens (env : Env) (data : ReqBody) :
    HttpResponse × List BuiltTx :=
  if missingFields data ["from_address", "to_address", "amount", "private_key"]
  then
    (resp400
      "Missing required fields: from_address, to_address, amount, private_key",
     [])
  else
    let fields := data.getD []
    let from_address := getKey fields "from_address"
    let to_address := getKey fields "to_address"
    let amountJ := getKey fields "amount"
    let private_key := getKey fields "private_key"
    if !ContractHandler.is_valid_address env from_address then
      (resp400 "Invalid sender address", [])
    else if !ContractHandler.is_valid_address env to_address then
      (resp400 "Invalid recipient address", [])
    else
      match amountCheck amountJ with
      | none => (resp400 "Invalid amount", [])
      | some amount =>
        match ContractHandler.transfer_tokens env from_address.asStr
            to_address.asStr amount private_key.asStr with
        | (.ok h, txs) =>
          (resp200 [("transaction_hash", .str h),
                    ("from_address", from_address), ("to_address", to_address),
                    ("amount", .num amount),
                    ("message",
                     .str "Transfer transaction submitted successfully")],
           txs)
        | (.error e, txs) => (resp500 e, txs)

/-- `POST /api/burn` (`burn_tokens`). -/
def burn_tokens (env : Env) (data : ReqBody) : HttpResponse × List BuiltTx :=
  if missingFields data ["from_address", "amount", "private_key"] then
    (resp400 "Missing required fields: from_address, amount, private_key", [])
  else
    let fields := data.getD []
    let from_address := getKey fields "from_address"
    let amountJ := getKey fields "amount"
    let private_key := getKey fields "private_key"
    if !ContractHandler.is_valid_address env from_address then
      (resp400 "Invalid address", [])
    else
      match amountCheck amountJ with
      | none => (resp400 "Invalid amount", [])
      | some amount =>
        match ContractHandler.burn_tokens env from_address.asStr amount
            private_key.asStr with
        | (.ok h, txs) =>
          (resp200 [("transaction_hash", .str h),
                    ("from_address", from_address), ("amount", .num amount),
                    ("message",
                     .str "Burn transaction submitted successfully")],
           txs)
        | (.error e, txs) => (resp500 e, txs)

/-- `GET /api/transaction/<tx_hash>` (`get_transaction_status`). -/
def get_transaction_status (env : Env) (tx_hash : String) : HttpResponse :=
  resp200 (ContractHandler.get_transaction_status env tx_hash)

/-- `data.get('params', {})` followed by `**params` expansion: absent
key means `{}`; a present non-dict value raises `TypeError`. -/
def paramsOf (fields : List (String × JValue)) :
    Except String (List (String × JValue)) :=
  match fields.lookup "params" with
  | none => .ok []
  | some (.obj ps) => .ok ps
  | some v =>
    .error ("estimate_gas() argument after ** must be a mapping, not "
            ++ pyTypeName v)

/-- `POST /api/gas/estimate` (`estimate_gas`). -/
def estimate_gas (env : Env) (data : ReqBody) : HttpResponse :=
  if missingFields data ["function_name"] then
    resp400 "Missing required field: function_name"
  else
    let fields := data.getD []
    let function_name := getKey fields "function_name"
    match paramsOf fields with
    | .error e => resp500 e
    | .ok params =>
      match ContractHandler.estimate_gas env function_name params with
      | .error e => resp500 e
      | .ok gas =>
        resp200 [("function_name", function_name),
                 ("estimated_gas", .num (.finite gas)),
                 ("estimated_cost_eth",
                  .str (ContractHandler.calculate_gas_cost env gas))]

end app

/-! ## Concrete environments used by witnesses and counterexamples -/

/-- A benign environment: every address valid, every oracle succeeding
with small concrete values. -/
def envBase : Env where
  isValidAddress := fun _ => true
  tokenName := .ok "MyToken"
  tokenSymbol := .ok "MTK"
  totalSupply := .ok 1000000
  decimals := .ok 2
  balanceOf := fun _ => .ok 12345
  gasPriceWei := .ok 100
  transactionCount := fun _ => .ok 7
  account := some "0xOwner"
  fromKey := fun _ => .ok "0xSender"
  send := fun _ => .ok "0xhash"
  estimateMint := fun _ _ _ => .ok 21000
  estimateTransfer := fun _ _ _ => .ok 21000
  estimateBurn := fun _ _ => .ok 21000
  getReceipt := fun _ => .ok ⟨1, 5, 21000, 0⟩
  getTransaction := fun _ => .error "transaction not found"

/-- `envBase` with the gas-price oracle failing: `w3.eth.gas_price`
raises. -/
def envGasFail : Env where
  isValidAddress := fun _ => true
  tokenName := .ok "MyToken"
  tokenSymbol := .ok "MTK"
  totalSupply := .ok 1000000
  decimals := .ok 2
  balanceOf := fun _ => .ok 12345
  gasPriceWei := .error "network down"
  transactionCount := fun _ => .ok 7
  account := some "0xOwner"
  fromKey := fun _ => .ok "0xSender"
  send := fun _ => .ok "0xhash"
  estimateMint := fun _ _ _ => .ok 21000
  estimateTransfer := fun _ _ _ => .ok 21000
  estimateBurn := fun _ _ => .ok 21000
  getReceipt := fun _ => .ok ⟨1, 5, 21000, 0⟩
  getTransaction := fun _ => .error "transaction not found"

/-- The value at key `k` inside a response's `data` object, if any. -/
def dataField (r : HttpResponse) (k : String) : Option JValue :=
  match r.body.lookup "data" with
  | some (.obj ds) => ds.lookup k
  | _ => none

/-- A well-formed `POST /api/transfer` body whose `amount` is the
string `"5"`. -/
def reqTransfer5 : ReqBody :=
  some [("from_address", .str "0xSender"), ("to_address", .str "0xTo"),
        ("amount", .str "5"), ("private_key", .str "0xKey")]

/-- `envBase` with every address failing checksum validation. -/
def envNoValid : Env where
  isValidAddress := fun _ => false
  tokenName := .ok "MyToken"
  tokenSymbol := .ok "MTK"
  totalSupply := .ok 1000000
  decimals := .ok 2
  balanceOf := fun _ => .ok 12345
  gasPriceWei := .ok 100
  transactionCount := fun _ => .ok 7
  account := some "0xOwner"
  fromKey := fun _ => .ok "0xSender"
  send := fun _ => .ok "0xhash"
  estimateMint := fun _ _ _ => .ok 21000
  estimateTransfer := fun _ _ _ => .ok 21000
  estimateBurn := fun _ _ => .ok 21000
  getReceipt := fun _ => .ok ⟨1, 5, 21000, 0⟩
  getTransaction := fun _ => .error "transaction not found"

/-- The disjunction of checks under which the mint handler rejects with
HTTP 400: required fields missing, recipient address invalid, or the
amount failing the positive-float check. -/
def mintValidationFails (env : Env) (data : ReqBody) : Bool :=
  missingFields data ["to_address", "amount"] ||
  !ContractHandler.is_valid_address env (getKey (data.getD []) "to_address") ||
  (amountCheck (getKey (data.getD []) "amount")).isNone

/-- The checks under which the transfer handler rejects with HTTP 400. -/
def transferValidationFails (env : Env) (data : ReqBody) : Bool :=
  missingFields data ["from_address", "to_address", "amount", "private_key"] ||
  !ContractHandler.is_valid_address env
    (getKey (data.getD []) "from_address") ||
  !ContractHandler.is_valid_address env (getKey (data.getD []) "to_address") ||
  (amountCheck (getKey (data.getD []) "amount")).isNone

/-- The checks under which the burn handler rejects with HTTP 400. -/
def burnValidationFails (env : Env) (data : ReqBody) : Bool :=
  missingFields data ["from_address", "amount", "private_key"] ||
  !ContractHandler.is_valid_address env
    (getKey (data.getD []) "from_address") ||
  (amountCheck (getKey (data.getD []) "amount")).isNone

/-- `envBase` with a balance needing 29 significant digits and zero
decimals. -/
def envBigBal : Env where
  isValidAddress := fun _ => true
  tokenName := .ok "MyToken"
  tokenSymbol := .ok "MTK"
  totalSupply := .ok 1000000
  decimals := .ok 0
  balanceOf := fun _ => .ok (10 ^ 28 + 1)
  gasPriceWei := .ok 100
  transactionCount := fun _ => .ok 7
  account := some "0xOwner"
  fromKey := fun _ => .ok "0xSender"
  send := fun _ => .ok "0xhash"
  estimateMint := fun _ _ _ => .ok 21000
  estimateTransfer := fun _ _ _ => .ok 21000
  estimateBurn := fun _ _ => .ok 21000
  getReceipt := fun _ => .ok ⟨1, 5, 21000, 0⟩
  getTransaction := fun _ => .error "transaction not found"

/-- The `{success, data|error}` JSON envelope property of a response:
a boolean `success` field, a `data` object when `success` is true, an
`error` string when `success` is false. -/
def envelopeShape (r : HttpResponse) : Prop :=
  (∃ b, r.body.lookup "success" = some (.bool b)) ∧
  (r.body.lookup "success" = some (.bool true) →
    ∃ ds, r.body.lookup "data" = some (.obj ds)) ∧
  (r.body.lookup "success" = some (.bool false) →
    ∃ s, r.body.lookup "error" = some (.str s))

/-! ## Helper lemmas -/

theorem bindOk {ε α β : Type} {m : Except ε α} {f : α → Except ε β} {b : β}
    (h : m >>= f = Except.ok b) : ∃ a, m = Except.ok a ∧ f a = Except.ok b := by
  cases m with
  | error e => simp [Bind.bind, Except.bind] at h
  | ok a => exact ⟨a, rfl, by simpa [Bind.bind, Except.bind] using h⟩

/-- A transaction reaches sign-and-send exactly when building it
succeeded with that transaction. -/
theorem mem_sendStage {env : Env} {pre : Except String BuiltTx} {tx : BuiltTx}
    (h : tx ∈ (ContractHandler.sendStage env pre).2) : pre = Except.ok tx := by
  cases pre with
  | error e => simp [ContractHandler.sendStage] at h
  | ok t => simp [ContractHandler.sendStage] at h; rw [h]

/-- Every transaction `mint_build` produces carries the raw network gas
price. -/
theorem mint_build_gasPrice {env : Env} {toA : String} {amt : PyFloat}
    {tx : BuiltTx} (h : ContractHandler.mint_build env toA amt = Except.ok tx) :
    Except.ok tx.gasPrice = env.gasPriceWei := by
  unfold ContractHandler.mint_build at h
  cases hacct : env.account with
  | none => rw [hacct] at h; exact absurd h (by simp)
  | some acct =>
    rw [hacct] at h
    obtain ⟨d, hd, h⟩ := bindOk h
    obtain ⟨w, hw, h⟩ := bindOk h
    obtain ⟨gp, hgp, h⟩ := bindOk h
    obtain ⟨n, hn, h⟩ := bindOk h
    simp only [pure, Except.pure, Except.ok.injEq] at h
    rw [← h, hgp]

/-- Every transaction `transfer_build` produces carries the raw network
gas price. -/
theorem transfer_build_gasPrice {env : Env} {frm toA : String}
    {amt : PyFloat} {pk : String} {tx : BuiltTx}
    (h : ContractHandler.transfer_build env frm toA amt pk = Except.ok tx) :
    Except.ok tx.gasPrice = env.gasPriceWei := by
  unfold ContractHandler.transfer_build at h
  obtain ⟨sender, hs, h⟩ := bindOk h
  split at h
  · exact absurd h (by simp)
  · obtain ⟨d, hd, h⟩ := bindOk h
    obtain ⟨w, hw, h⟩ := bindOk h
    obtain ⟨gp, hgp, h⟩ := bindOk h
    obtain ⟨n, hn, h⟩ := bindOk h
    simp only [pure, Except.pure, Except.ok.injEq] at h
    rw [← h, hgp]

/-- Every transaction `burn_build` produces carries the raw network gas
price. -/
theorem burn_build_gasPrice {env : Env} {frm : String} {amt : PyFloat}
    {pk : String} {tx : BuiltTx}
    (h : ContractHandler.burn_build env frm amt pk = Except.ok tx) :
    Except.ok tx.gasPrice = env.gasPriceWei := by
  unfold ContractHandler.burn_build at h
  obtain ⟨burner, hs, h⟩ := bindOk h
  split at h
  · exact absurd h (by simp)
  · obtain ⟨d, hd, h⟩ := bindOk h
    obtain ⟨w, hw, h⟩ := bindOk h
    obtain ⟨gp, hgp, h⟩ := bindOk h
    obtain ⟨n, hn, h⟩ := bindOk h
    simp only [pure, Except.pure, Except.ok.injEq] at h
    rw [← h, hgp]

/-- The mint handler answers 400 exactly when its validation fails, with one of its three fixed validation messages, and hands nothing to sign-and-send in that case. -/
theorem mint_400_iff (env : Env) (data : ReqBody) :
    ((app.mint_tokens env data).1.status = 400 ↔
      mintValidationFails env data = true) ∧
    ((app.mint_tokens env data).1.status = 400 →
      ((app.mint_tokens env data).1 =
          resp400 "Missing required fields: to_address, amount" ∨
       (app.mint_tokens env data).1 = resp400 "Invalid recipient address" ∨
       (app.mint_tokens env data).1 = resp400 "Invalid amount")) ∧
    (mintValidationFails env data = true →
      (app.mint_tokens env data).2 = []) := by
  unfold app.mint_tokens
  dsimp only
  split
  · rename_i hm
    simp [mintValidationFails, hm, resp400]
  · rename_i hm
    split
    · rename_i hv
      simp [mintValidationFails, hm, hv, resp400]
    · rename_i hv
      split
      · rename_i ha
        simp [mintValidationFails, hm, hv, ha, resp400, Option.isNone]
      · rename_i amt ha
        split
        · rename_i p htx
          simp [mintValidationFails, hm, hv, ha, resp200, Option.isNone]
        · rename_i p htx
          simp [mintValidationFails, hm, hv, ha, resp500, Option.isNone]

/-- The transfer handler answers 400 exactly when its validation fails, with one of its four fixed validation messages, and hands nothing to sign-and-send in that case. -/
theorem transfer_400_iff (env : Env) (data : ReqBody) :
    ((app.transfer_tokens env data).1.status = 400 ↔
      transferValidationFails env data = true) ∧
    ((app.transfer_tokens env data).1.status = 400 →
      ((app.transfer_tokens env data).1 = resp400
          "Missing required fields: from_address, to_address, amount, private_key"
        ∨
       (app.transfer_tokens env data).1 = resp400 "Invalid sender address" ∨
       (app.transfer_tokens env data).1 = resp400 "Invalid recipient address" ∨
       (app.transfer_tokens env data).1 = resp400 "Invalid amount")) ∧
    (transferValidationFails env data = true →
      (app.transfer_tokens env data).2 = []) := by
  unfold app.transfer_tokens
  dsimp only
  split
  · rename_i hm
    simp [transferValidationFails, hm, resp400]
  · rename_i hm
    split
    · rename_i hv
      simp [transferValidationFails, hm, hv, resp400]
    · rename_i hv
      split
      · rename_i hv2
        simp [transferValidationFails, hm, hv, hv2, resp400]
      · rename_i hv2
        split
        · rename_i ha
          simp [transferValidationFails, hm, hv, hv2, ha, resp400,
            Option.isNone]
        · rename_i amt ha
          split
          · rename_i p htx
            simp [transferValidationFails, hm, hv, hv2, ha, resp200,
              Option.isNone]
          · rename_i p htx
            simp [transferValidationFails, hm, hv, hv2, ha, resp500,
              Option.isNone]

/-- The burn handler answers 400 exactly when its validation fails, with one of its three fixed validation messages, and hands nothing to sign-and-send in that case. -/
theorem burn_400_iff (env : Env) (data : ReqBody) :
    ((app.burn_tokens env data).1.status = 400 ↔
      burnValidationFails env data = true) ∧
    ((app.burn_tokens env data).1.status = 400 →
      ((app.burn_tokens env data).1 = resp400
          "Missing required fields: from_address, amount, private_key" ∨
       (app.burn_tokens env data).1 = resp400 "Invalid address" ∨
       (app.burn_tokens env data).1 = resp400 "Invalid amount")) ∧
    (burnValidationFails env data = true →
      (app.burn_tokens env data).2 = []) := by
  unfold app.burn_tokens
  dsimp only
  split
  · rename_i hm
    simp [burnValidationFails, hm, resp400]
  · rename_i hm
    split
    · rename_i hv
      simp [burnValidationFails, hm, hv, resp400]
    · rename_i hv
      split
      · rename_i ha
        simp [burnValidationFails, hm, hv, ha, resp400, Option.isNone]
      · rename_i amt ha
        split
        · rename_i p htx
          simp [burnValidationFails, hm, hv, ha, resp200, Option.isNone]
        · rename_i p htx
          simp [burnValidationFails, hm, hv, ha, resp500, Option.isNone]

/-- The balance handler answers 400 exactly when the address fails validation, with the fixed message, and maps a delegate failure to 500 with the exception message. -/
theorem balance_400_iff (env : Env) (a : String) :
    ((app.get_balance env a).status = 400 ↔ env.isValidAddress a = false) ∧
    (env.isValidAddress a = false →
      app.get_balance env a = resp400 "Invalid Ethereum address") ∧
    (∀ e, env.isValidAddress a = true →
      ContractHandler.get_balance env a = Except.error e →
      app.get_balance env a = resp500 e) := by
  unfold app.get_balance
  split
  · rename_i hv
    simp only [Bool.not_eq_eq_eq_not, Bool.not_true] at hv
    simp [hv, resp400]
  · rename_i hv
    simp only [Bool.not_eq_eq_eq_not, Bool.not_true] at hv
    split
    · rename_i bal hb
      refine ⟨by simp [hv, resp200], by simp [hv], fun e2 _ he2 => ?_⟩
      rw [he2] at hb
      cases hb
    · rename_i e hb
      refine ⟨by simp [hv, resp500], by simp [hv], fun e2 _ he2 => ?_⟩
      rw [he2] at hb
      cases hb
      rfl

/-- The gas-estimate handler answers 400 exactly when `function_name` is missing. -/
theorem estimate_400_iff (env : Env) (data : ReqBody) :
    (app.estimate_gas env data).status = 400 ↔
      missingFields data ["function_name"] = true := by
  unfold app.estimate_gas
  dsimp only
  split
  · rename_i hm
    simp [hm, resp400]
  · rename_i hm
    split
    · rename_i e hp
      simp [hm, resp500]
    · rename_i ps hp
      split
      · rename_i e he
        simp [hm, resp500]
      · rename_i g he
        simp [hm, resp200]

/-- An unknown `function_name` string raises `ValueError` inside the delegate and is answered 500 with `Unknown function: <name>`. -/
theorem estimate_unknown_500 (env : Env) (fields : List (String × JValue))
    (s : String) (ps : List (String × JValue))
    (hmf : missingFields (some fields) ["function_name"] = false)
    (hfn : getKey fields "function_name" = JValue.str s)
    (hs : ¬(s = "mint" ∨ s = "transfer" ∨ s = "burn"))
    (hps : app.paramsOf fields = Except.ok ps) :
    app.estimate_gas env (some fields) =
      resp500 ("Unknown function: " ++ s) := by
  push_neg at hs
  obtain ⟨h1, h2, h3⟩ := hs
  unfold app.estimate_gas
  dsimp only
  rw [hmf]
  simp only [Bool.false_eq_true, if_false, Option.getD_some]
  rw [hps]
  dsimp only
  rw [hfn]
  simp [ContractHandler.estimate_gas, h1, h2, h3]


/-- A delegate failure of `mint_tokens` is answered 500 with the exception's message. -/
theorem mint_500_eq (env : Env) (fields : List (String × JValue))
    (amount : PyFloat) (e : String) (txs : List BuiltTx)
    (hmf : missingFields (some fields) ["to_address", "amount"] = false)
    (hval : ContractHandler.is_valid_address env (getKey fields "to_address")
      = true)
    (hamt : amountCheck (getKey fields "amount") = some amount)
    (htx : ContractHandler.mint_tokens env (getKey fields "to_address").asStr
      amount = (Except.error e, txs)) :
    (app.mint_tokens env (some fields)).1 = resp500 e := by
  unfold app.mint_tokens
  dsimp only
  rw [hmf]
  simp only [Bool.false_eq_true, if_false, Option.getD_some]
  rw [hval]
  simp only [Bool.not_true, Bool.false_eq_true, if_false]
  rw [hamt]
  dsimp only
  rw [htx]

/-- A delegate failure of `transfer_tokens` is answered 500 with the exception's message. -/
theorem transfer_500_eq (env : Env) (fields : List (String × JValue))
    (amount : PyFloat) (e : String) (txs : List BuiltTx)
    (hmf : missingFields (some fields)
      ["from_address", "to_address", "amount", "private_key"] = false)
    (hv1 : ContractHandler.is_valid_address env
      (getKey fields "from_address") = true)
    (hv2 : ContractHandler.is_valid_address env (getKey fields "to_address")
      = true)
    (hamt : amountCheck (getKey fields "amount") = some amount)
    (htx : ContractHandler.transfer_tokens env
      (getKey fields "from_address").asStr (getKey fields "to_address").asStr
      amount (getKey fields "private_key").asStr = (Except.error e, txs)) :
    (app.transfer_tokens env (some fields)).1 = resp500 e := by
  unfold app.transfer_tokens
  dsimp only
  rw [hmf]
  simp only [Bool.false_eq_true, if_false, Option.getD_some]
  rw [hv1]
  simp only [Bool.not_true, Bool.false_eq_true, if_false]
  rw [hv2]
  simp only [Bool.not_true, Bool.false_eq_true, if_false]
  rw [hamt]
  dsimp only
  rw [htx]

/-- A delegate failure of `burn_tokens` is answered 500 with the exception's message. -/
theorem burn_500_eq (env : Env) (fields : List (String × JValue))
    (amount : PyFloat) (e : String) (txs : List BuiltTx)
    (hmf : missingFields (some fields)
      ["from_address", "amount", "private_key"] = false)
    (hval : ContractHandler.is_valid_address env
      (getKey fields "from_address") = true)
    (hamt : amountCheck (getKey fields "amount") = some amount)
    (htx : ContractHandler.burn_tokens env
      (getKey fields "from_address").asStr amount
      (getKey fields "private_key").asStr = (Except.error e, txs)) :
    (app.burn_tokens env (some fields)).1 = resp500 e := by
  unfold app.burn_tokens
  dsimp only
  rw [hmf]
  simp only [Bool.false_eq_true, if_false, Option.getD_some]
  rw [hval]
  simp only [Bool.not_true, Bool.false_eq_true, if_false]
  rw [hamt]
  dsimp only
  rw [htx]

/-- A delegate failure of `get_token_info` is answered 500 with the exception's message. -/
theorem token_info_500_eq (env : Env) (c e : String)
    (h : ContractHandler.get_token_info env c = Except.error e) :
    app.get_token_info env c = resp500 e := by
  unfold app.get_token_info
  rw [h]

/-- A non-mapping `params` value raises at `**params` expansion and is answered 500. -/
theorem estimate_params_500 (env : Env) (fields : List (String × JValue))
    (e : String)
    (hmf : missingFields (some fields) ["function_name"] = false)
    (hps : app.paramsOf fields = Except.error e) :
    app.estimate_gas env (some fields) = resp500 e := by
  unfold app.estimate_gas
  dsimp only
  rw [hmf]
  simp only [Bool.false_eq_true, if_false, Option.getD_some]
  rw [hps]

/-- A failure inside `estimate_gas` is answered 500 with the exception's message. -/
theorem estimate_err_500 (env : Env) (fields ps : List (String × JValue))
    (e : String)
    (hmf : missingFields (some fields) ["function_name"] = false)
    (hps : app.paramsOf fields = Except.ok ps)
    (he : ContractHandler.estimate_gas env (getKey fields "function_name") ps
      = Except.error e) :
    app.estimate_gas env (some fields) = resp500 e := by
  unfold app.estimate_gas
  dsimp only
  rw [hmf]
  simp only [Bool.false_eq_true, if_false, Option.getD_some]
  rw [hps]
  dsimp only
  rw [he]

/-- The health check responds 200. -/
theorem health_status : app.health_check.status = 200 := rfl

/-- The token-info endpoint responds 200 or 500, never 400. -/
theorem token_info_status (env : Env) (c : String) :
    (app.get_token_info env c).status = 200 ∨
    (app.get_token_info env c).status = 500 := by
  unfold app.get_token_info
  split
  · exact Or.inl rfl
  · exact Or.inr rfl


/-- `numDigitsAux` with sufficient fuel computes `Nat.log`-based digit
count. -/
theorem numDigitsAux_eq (fuel : ℕ) : ∀ n, n < fuel →
    numDigitsAux fuel n = Nat.log 10 n + 1 := by
  induction fuel with
  | zero => intro n h; omega
  | succ f ih =>
    intro n h
    unfold numDigitsAux
    by_cases h10 : n < 10
    · simp [h10, Nat.log_eq_zero_iff, h10]
    · have hn1 : 1 ≤ n := by omega
      have hdiv : n / 10 < f := by
        have := Nat.div_lt_self (by omega : 0 < n) (by omega : 1 < 10)
        omega
      simp only [h10, if_false]
      rw [ih (n / 10) hdiv]
      have hlog : Nat.log 10 (n / 10) = Nat.log 10 n - 1 := Nat.log_div_base 10 n
      have hpos : 0 < Nat.log 10 n :=
        Nat.log_pos (by omega) (by omega)
      omega

/-- `numDigits` in terms of `Nat.log`. -/
theorem numDigits_eq_log (n : ℕ) : numDigits n = Nat.log 10 n + 1 :=
  numDigitsAux_eq (n + 1) n (Nat.lt_succ_self n)

/-- Every natural number has at least one digit. -/
theorem numDigits_pos (n : ℕ) : 1 ≤ numDigits n := by
  rw [numDigits_eq_log]; omega

/-- A nonzero number below `10 ^ k` has at most `k` digits. -/
theorem numDigits_le_of_lt_pow {n k : ℕ} (h : n < 10 ^ k) (hn : n ≠ 0) :
    numDigits n ≤ k := by
  rw [numDigits_eq_log]
  have := (Nat.lt_pow_iff_log_lt (by omega : 1 < 10) hn).mp h
  omega

/-- `10 ^ d` has `d + 1` digits. -/
theorem numDigits_pow10 (d : ℕ) : numDigits (10 ^ d) = d + 1 := by
  rw [numDigits_eq_log, Nat.log_pow (by omega : 1 < 10)]

/-- `fixPrec` leaves a coefficient within the precision unchanged. -/
theorem fixPrec_id {prec c : ℕ} (e : ℤ) (h : numDigits c ≤ prec) :
    fixPrec prec c e = ⟨c, e⟩ := by
  unfold fixPrec
  simp [h]

/-- Invariants of the exact-quotient normalisation: the exponent stays
non-positive, the denoted value is preserved (stated multiplicatively
over ℕ), and it stops only at exponent 0 or at a coefficient not
divisible by 10. -/
theorem reduceExact_spec (fuel : ℕ) : ∀ (c : ℕ) (e : ℤ),
    (-e).toNat ≤ fuel → e ≤ 0 →
    (reduceExact fuel c e).exp ≤ 0 ∧
    (reduceExact fuel c e).coeff * 10 ^ (-e).toNat =
      c * 10 ^ (-(reduceExact fuel c e).exp).toNat ∧
    ((reduceExact fuel c e).exp = 0 ∨ ¬(10 ∣ (reduceExact fuel c e).coeff))
    := by
  induction fuel with
  | zero =>
    intro c e hf he
    have he0 : e = 0 := by omega
    subst he0
    exact ⟨le_refl 0, rfl, Or.inl rfl⟩
  | succ f ih =>
    intro c e hf he
    unfold reduceExact
    by_cases hc : e < 0 ∧ c % 10 = 0
    · rw [if_pos hc]
      obtain ⟨he1, hc10⟩ := hc
      have hf1 : (-(e + 1)).toNat ≤ f := by omega
      have he2 : e + 1 ≤ 0 := by omega
      obtain ⟨h1, h2, h3⟩ := ih (c / 10) (e + 1) hf1 he2
      refine ⟨h1, ?_, h3⟩
      have hdvd : 10 ∣ c := Nat.dvd_of_mod_eq_zero hc10
      have hten : (-e).toNat = (-(e + 1)).toNat + 1 := by omega
      rw [hten, pow_succ, ← mul_assoc, h2, mul_right_comm,
        Nat.div_mul_cancel hdvd]
    · rw [if_neg hc]
      have hstop : e = 0 ∨ ¬ (10 ∣ c) := by
        by_cases he1 : e = 0
        · exact Or.inl he1
        · refine Or.inr fun hdvd => hc ⟨by omega, ?_⟩
          obtain ⟨k, rfl⟩ := hdvd
          exact Nat.mul_mod_right 10 k
      exact ⟨he, rfl, hstop⟩

/-- Exactness of the modelled `Decimal` division on the balance path:
when the numerator is below `10 ^ 28` (the context precision), the
quotient by `10 ^ d` is represented exactly. -/
theorem decDivide_exact (wei d : ℕ) (hwei : wei < 10 ^ 28) :
    (decDivide 28 wei (10 ^ d)).toRat = (wei : ℚ) / (10 : ℚ) ^ d := by
  have hb0 : (10 : ℕ) ^ d ≠ 0 := by positivity
  by_cases hw0 : wei = 0
  · subst hw0
    unfold decDivide
    rw [if_neg hb0, if_pos rfl]
    simp [Dec.toRat]
  · have hnd1 : 1 ≤ numDigits wei := numDigits_pos wei
    have hnd28 : numDigits wei ≤ 28 := numDigits_le_of_lt_pow hwei hw0
    set nd := numDigits wei with hnd
    set m := d + 30 - nd with hm
    have hdm : d + 2 ≤ m := by omega
    have hshift : ((numDigits (10 ^ d) : ℤ) - (nd : ℤ) + (28 : ℕ) + 1)
        = ((m : ℕ) : ℤ) := by
      rw [numDigits_pow10]
      push_cast
      omega
    have hdvd : (10 : ℕ) ^ d ∣ wei * 10 ^ m :=
      Dvd.dvd.mul_left (pow_dvd_pow 10 (by omega)) wei
    have hrem : wei * 10 ^ m % 10 ^ d = 0 := by
      obtain ⟨k, hk⟩ := hdvd
      rw [hk]
      exact Nat.mul_mod_right _ _
    have hcoeff : wei * 10 ^ m / 10 ^ d = wei * 10 ^ (m - d) := by
      rw [Nat.mul_div_assoc wei (pow_dvd_pow 10 (by omega : d ≤ m)),
        Nat.pow_div (by omega) (by omega)]
    unfold decDivide
    rw [if_neg hb0, if_neg hw0]
    dsimp only
    rw [hshift]
    rw [if_pos (by positivity : (0 : ℤ) ≤ ((m : ℕ) : ℤ))]
    dsimp only
    rw [Int.toNat_natCast, hrem, hcoeff]
    simp only [ne_eq, not_true_eq_false, if_false, not_false_iff]
    obtain ⟨hexp, heq, hstop⟩ :=
      reduceExact_spec m (wei * 10 ^ (m - d)) (-(m : ℤ))
        (by simp) (by omega)
    set r := reduceExact m (wei * 10 ^ (m - d)) (-(m : ℤ)) with hr
    set k := (-r.exp).toNat with hk
    have hrexp : r.exp = -(k : ℤ) := by omega
    have heqm : r.coeff * 10 ^ m = wei * 10 ^ (m - d) * 10 ^ k := by
      simpa using heq
    have key : r.coeff * 10 ^ d = wei * 10 ^ k := by
      have h2 : r.coeff * 10 ^ d * 10 ^ (m - d) =
          wei * 10 ^ k * 10 ^ (m - d) := by
        calc r.coeff * 10 ^ d * 10 ^ (m - d)
            = r.coeff * 10 ^ m := by
              rw [mul_assoc, ← pow_add]
              congr 2
              omega
          _ = wei * 10 ^ (m - d) * 10 ^ k := heqm
          _ = wei * 10 ^ k * 10 ^ (m - d) := by ring
      exact Nat.eq_of_mul_eq_mul_right (by positivity) h2
    have rc0 : r.coeff ≠ 0 := by
      intro h0
      rw [h0, zero_mul] at key
      rcases Nat.mul_eq_zero.mp key.symm with h | h
      · exact hw0 h
      · exact absurd h (by positivity)
    have hbound : r.coeff < 10 ^ 28 := by
      rcases hstop with h0 | hnd10
      · have hk0 : k = 0 := by omega
        rw [hk0, pow_zero, mul_one] at key
        calc r.coeff = r.coeff * 1 := by ring
          _ ≤ r.coeff * 10 ^ d :=
              Nat.mul_le_mul_left _ (Nat.one_le_pow _ _ (by omega))
          _ = wei := key
          _ < 10 ^ 28 := hwei
      · by_cases hkd : k ≤ d
        · have : r.coeff * 10 ^ (d - k) * 10 ^ k = wei * 10 ^ k := by
            rw [mul_assoc, ← pow_add]
            calc r.coeff * 10 ^ (d - k + k) = r.coeff * 10 ^ d := by
                  congr 2
                  omega
              _ = wei * 10 ^ k := key
          have hle : r.coeff * 10 ^ (d - k) = wei :=
            Nat.eq_of_mul_eq_mul_right (by positivity) this
          calc r.coeff = r.coeff * 1 := by ring
            _ ≤ r.coeff * 10 ^ (d - k) :=
                Nat.mul_le_mul_left _ (Nat.one_le_pow _ _ (by omega))
            _ = wei := hle
            _ < 10 ^ 28 := hwei
        · exfalso
          have : r.coeff * 10 ^ d = wei * 10 ^ (k - d) * 10 ^ d := by
            rw [key, mul_assoc, ← pow_add]
            congr 2
            omega
          have hco : r.coeff = wei * 10 ^ (k - d) :=
            Nat.eq_of_mul_eq_mul_right (by positivity) this
          apply hnd10
          rw [hco]
          have : (10 : ℕ) ∣ 10 ^ (k - d) :=
            dvd_pow_self 10 (by omega : k - d ≠ 0)
          exact Dvd.dvd.mul_left this wei
    have hfix := fixPrec_id r.exp (numDigits_le_of_lt_pow hbound rc0)
    rw [hfix]
    rw [Dec.toRat]
    dsimp only
    rw [hrexp]
    rw [zpow_neg, zpow_natCast, ← div_eq_mul_inv,
      div_eq_div_iff (by positivity) (by positivity)]
    exact_mod_cast key

/-! ## Claim C6: gas price attached to built transactions -/

/-- C6 counterexample: the transaction built by `mint_tokens` carries
the raw network gas price (100 wei here), and that is not the network
gas price multiplied by the configured `GAS_PRICE_MULTIPLIER` (1.1 by
default), refuting the claim that the attached gas price is obtained by
that multiplication. -/
theorem claim_C6_counterexample :
    (ContractHandler.mint_tokens envBase "0xTo" (PyFloat.finite 5)).2.map
      BuiltTx.gasPrice = [100] ∧
    envBase.gasPriceWei = Except.ok 100 ∧
    (100 : ℚ) ≠ (100 : ℚ) * Config.GAS_PRICE_MULTIPLIER :=
  ⟨rfl, rfl, by norm_num [Config.GAS_PRICE_MULTIPLIER]⟩

/-- C6 (amended): the gas price attached to every mint, transfer, and
burn transaction built by the contract handler is the network's current
gas price unchanged; `Config.GAS_PRICE_MULTIPLIER` is never applied. -/
theorem claim_C6_amended :
    (∀ (env : Env) (toA : String) (amt : PyFloat) (tx : BuiltTx),
        tx ∈ (ContractHandler.mint_tokens env toA amt).2 →
        Except.ok tx.gasPrice = env.gasPriceWei) ∧
    (∀ (env : Env) (frm toA : String) (amt : PyFloat) (pk : String)
        (tx : BuiltTx),
        tx ∈ (ContractHandler.transfer_tokens env frm toA amt pk).2 →
        Except.ok tx.gasPrice = env.gasPriceWei) ∧
    (∀ (env : Env) (frm : String) (amt : PyFloat) (pk : String)
        (tx : BuiltTx),
        tx ∈ (ContractHandler.burn_tokens env frm amt pk).2 →
        Except.ok tx.gasPrice = env.gasPriceWei) := by
  refine ⟨fun env toA amt tx h => ?_, fun env frm toA amt pk tx h => ?_,
    fun env frm amt pk tx h => ?_⟩
  · exact mint_build_gasPrice
      (mem_sendStage (by simpa [ContractHandler.mint_tokens] using h))
  · exact transfer_build_gasPrice
      (mem_sendStage (by simpa [ContractHandler.transfer_tokens] using h))
  · exact burn_build_gasPrice
      (mem_sendStage (by simpa [ContractHandler.burn_tokens] using h))

/-- C6 witness: the amended theorem applied to a concrete mint in
`envBase` shows the built transaction carries gas price 100, the
network's value. -/
theorem claim_C6_witness :
    Except.ok (ContractHandler.mint_tokens envBase "0xTo"
        (PyFloat.finite 5)).2.headI.gasPrice = envBase.gasPriceWei :=
  claim_C6_amended.1 envBase "0xTo" (PyFloat.finite 5) _
    (by simp [ContractHandler.mint_tokens, ContractHandler.mint_build,
      ContractHandler.sendStage, envBase, Bind.bind, Except.bind, pure,
      Except.pure, pyInt, PyFloat.mulNat])

/-! ## Claim C5: response envelope shape -/

theorem shape200 (ds : List (String × JValue)) : envelopeShape (resp200 ds) :=
  ⟨⟨true, rfl⟩, fun _ => ⟨ds, rfl⟩, fun h => by simp [resp200] at h⟩

theorem shape400 (m : String) : envelopeShape (resp400 m) :=
  ⟨⟨false, rfl⟩, fun h => by simp [resp400] at h, fun _ => ⟨m, rfl⟩⟩

theorem shape500 (m : String) : envelopeShape (resp500 m) :=
  ⟨⟨false, rfl⟩, fun h => by simp [resp500] at h, fun _ => ⟨m, rfl⟩⟩

/-- C5 counterexample: the `GET /` health-check response has
`success = true` but no `data` field at all (its other keys are
`message` and `version`), refuting the claim that every endpoint's
response carries a `data` field when `success` is true. -/
theorem claim_C5_counterexample :
    app.health_check.body.lookup "success" = some (JValue.bool true) ∧
    app.health_check.body.lookup "data" = none :=
  ⟨rfl, rfl⟩

/-- C5 (amended): every response of every handler is a JSON object with
a boolean `success`, an `error` string when `success` is false, and a
`data` object when `success` is true — except `GET /`, whose success
body carries `message` and `version` instead of `data`. -/
theorem claim_C5_amended :
    (app.health_check.body.lookup "success" = some (JValue.bool true) ∧
     app.health_check.body.lookup "data" = none ∧
     app.health_check.body.lookup "message" =
       some (.str "Smart Contract Backend API is running")) ∧
    (∀ m, envelopeShape (app.handle_error m)) ∧
    (∀ env c, envelopeShape (app.get_token_info env c)) ∧
    (∀ env a, envelopeShape (app.get_balance env a)) ∧
    (∀ env d, envelopeShape (app.mint_tokens env d).1) ∧
    (∀ env d, envelopeShape (app.transfer_tokens env d).1) ∧
    (∀ env d, envelopeShape (app.burn_tokens env d).1) ∧
    (∀ env h, envelopeShape (app.get_transaction_status env h)) ∧
    (∀ env d, envelopeShape (app.estimate_gas env d)) := by
  refine ⟨⟨rfl, rfl, rfl⟩, fun m => ?_, fun env c => ?_, fun env a => ?_,
    fun env d => ?_, fun env d => ?_, fun env d => ?_, fun env h => ?_,
    fun env d => ?_⟩
  · exact ⟨⟨false, rfl⟩, fun h => by simp [app.handle_error] at h,
      fun _ => ⟨m, rfl⟩⟩
  · unfold app.get_token_info
    split
    · exact shape200 _
    · exact shape500 _
  · unfold app.get_balance
    split
    · exact shape400 _
    · split
      · exact shape200 _
      · exact shape500 _
  · unfold app.mint_tokens
    dsimp only
    split
    · exact shape400 _
    · split
      · exact shape400 _
      · split
        · exact shape400 _
        · split
          · exact shape200 _
          · exact shape500 _
  · unfold app.transfer_tokens
    dsimp only
    split
    · exact shape400 _
    · split
      · exact shape400 _
      · split
        · exact shape400 _
        · split
          · exact shape400 _
          · split
            · exact shape200 _
            · exact shape500 _
  · unfold app.burn_tokens
    dsimp only
    split
    · exact shape400 _
    · split
      · exact shape400 _
      · split
        · exact shape400 _
        · split
          · exact shape200 _
          · exact shape500 _
  · exact shape200 _
  · unfold app.estimate_gas
    dsimp only
    split
    · exact shape400 _
    · split
      · exact shape500 _
      · split
        · exact shape500 _
        · exact shape200 _

/-- C5 witness: the amended theorem at a concrete input — the global
error handler's response for a concrete message satisfies the envelope
shape. -/
theorem claim_C5_witness : envelopeShape (app.handle_error "boom") :=
  claim_C5_amended.2.1 "boom"

/-! ## Claim C9: transaction-status dictionary invariants -/

/-- C9: for every tx_hash, `get_transaction_status` returns a dict
containing `hash` equal to the given hash and `status` equal to
`success` (receipt found with status 1), `failed` (receipt found with
other status) or `pending` (no receipt retrievable) — and the endpoint
always answers 200, never 400. -/
theorem claim_C9 (env : Env) (tx_hash : String) :
    (ContractHandler.get_transaction_status env tx_hash).lookup "hash" =
      some (JValue.str tx_hash) ∧
    (match env.getReceipt tx_hash with
     | .ok r => (ContractHandler.get_transaction_status env tx_hash).lookup
         "status" =
           some (.str (if r.status = 1 then "success" else "failed"))
     | .error _ => (ContractHandler.get_transaction_status env tx_hash).lookup
         "status" = some (.str "pending")) ∧
    (∃ s, (ContractHandler.get_transaction_status env tx_hash).lookup "status"
        = some (.str s) ∧ (s = "success" ∨ s = "failed" ∨ s = "pending")) ∧
    (app.get_transaction_status env tx_hash).status = 200 ∧
    (app.get_transaction_status env tx_hash).status ≠ 400 := by
  refine ⟨rfl, ?_, ?_, rfl, by simp [app.get_transaction_status, resp200]⟩
  · cases hr : env.getReceipt tx_hash with
    | ok r => simp only [ContractHandler.get_transaction_status, hr]; rfl
    | error e => simp only [ContractHandler.get_transaction_status, hr]; rfl
  · cases hr : env.getReceipt tx_hash with
    | ok r =>
      refine ⟨if r.status = 1 then "success" else "failed",
        by simp only [ContractHandler.get_transaction_status, hr]; rfl, ?_⟩
      rcases eq_or_ne r.status 1 with h | h <;> simp [h]
    | error e =>
      exact ⟨"pending",
        by simp only [ContractHandler.get_transaction_status, hr]; rfl,
        Or.inr (Or.inr rfl)⟩

/-! ## Claim C8: calculate_gas_cost never propagates a failure -/

/-- C8: when the gas-price lookup fails, `calculate_gas_cost` returns
the string `"0.0"` instead of raising, so a gas estimation that
succeeded still produces a 200 success envelope (with
`estimated_cost_eth = "0.0"`), never the 500 error path. -/
theorem claim_C8 (env : Env) (gas_amount : ℕ) (e : String)
    (hgp : env.gasPriceWei = Except.error e) :
    ContractHandler.calculate_gas_cost env gas_amount = "0.0" ∧
    ∀ (fields ps : List (String × JValue)) (g : ℕ),
      missingFields (some fields) ["function_name"] = false →
      app.paramsOf fields = Except.ok ps →
      ContractHandler.estimate_gas env (getKey fields "function_name") ps =
        Except.ok g →
      app.estimate_gas env (some fields) =
        resp200 [("function_name", getKey fields "function_name"),
                 ("estimated_gas", .num (.finite g)),
                 ("estimated_cost_eth", .str "0.0")] := by
  have hc : ∀ g : ℕ, ContractHandler.calculate_gas_cost env g = "0.0" := by
    intro g
    unfold ContractHandler.calculate_gas_cost
    rw [hgp]
  refine ⟨hc gas_amount, fun fields ps g hmf hps hest => ?_⟩
  unfold app.estimate_gas
  dsimp only
  rw [hmf]
  simp only [Bool.false_eq_true, if_false, Option.getD_some]
  rw [hps]
  dsimp only
  rw [hest]
  dsimp only
  rw [hc g]

/-- C8 witness: in `envGasFail` (gas-price oracle raising) a burn
estimate still yields a 200 envelope with cost `"0.0"`. -/
theorem claim_C8_witness :
    ContractHandler.calculate_gas_cost envGasFail 21000 = "0.0" ∧
    app.estimate_gas envGasFail
        (some [("function_name", JValue.str "burn"),
               ("params", .obj [("amount", .num (.finite 1)),
                                ("from_address", .str "0xS")])]) =
      resp200 [("function_name", .str "burn"),
               ("estimated_gas", .num (.finite 21000)),
               ("estimated_cost_eth", .str "0.0")] :=
  ⟨(claim_C8 envGasFail 21000 "network down" rfl).1,
   (claim_C8 envGasFail 21000 "network down" rfl).2
     [("function_name", JValue.str "burn"),
      ("params", .obj [("amount", .num (.finite 1)),
                       ("from_address", .str "0xS")])]
     [("amount", .num (.finite 1)), ("from_address", .str "0xS")]
     21000 rfl rfl rfl⟩

/-! ## Claim C3: amount validation and NaN -/

/-- C3 evaluation at the failing input: a mint request with a valid
address and amount `"nan"` passes the amount validation
(`float("nan")` succeeds and `nan <= 0` is false), the delegate then
raises `ValueError` at `int(amount * 10**decimals)`, and the endpoint
answers HTTP 500 with that message — not the claimed HTTP 400
`Invalid amount`.  No transaction reaches sign-and-send. -/
theorem claim_C3_theorem :
    (app.mint_tokens envBase
        (some [("to_address", JValue.str "0xAlice"),
               ("amount", JValue.str "nan")])).1 =
      resp500 "cannot convert float NaN to integer" ∧
    (app.mint_tokens envBase
        (some [("to_address", JValue.str "0xAlice"),
               ("amount", JValue.str "nan")])).2 = [] ∧
    amountCheck (JValue.str "nan") = some PyFloat.nan ∧
    amountCheck (JValue.num PyFloat.nan) = some PyFloat.nan :=
  ⟨rfl, rfl, rfl, rfl⟩


/-! ## Claim C7: echo of submitted fields -/

/-- C7 counterexample: a successful transfer whose submitted `amount`
is the string `"5"` echoes `amount` as the float 5.0, not the submitted
string, and its `data` contains no `private_key` field at all, refuting
the claim that each submitted field appears with the value that was
submitted. -/
theorem claim_C7_counterexample :
    dataField (app.transfer_tokens envBase reqTransfer5).1 "private_key" =
      none ∧
    dataField (app.transfer_tokens envBase reqTransfer5).1 "amount" =
      some (JValue.num (PyFloat.finite 5)) ∧
    (reqTransfer5.getD []).lookup "amount" = some (JValue.str "5") ∧
    JValue.num (PyFloat.finite 5) ≠ JValue.str "5" :=
  ⟨rfl, rfl, rfl, fun h => JValue.noConfusion h⟩

/-- C7 (amended): every successful mint/transfer/burn response echoes
the submitted address fields and the float-converted amount (plus the
transaction hash and a message); `private_key` is not echoed. -/
theorem claim_C7_amended :
    (∀ (env : Env) (fields : List (String × JValue)) (amount : PyFloat)
        (h : String) (txs : List BuiltTx),
        missingFields (some fields) ["to_address", "amount"] = false →
        ContractHandler.is_valid_address env (getKey fields "to_address") =
          true →
        amountCheck (getKey fields "amount") = some amount →
        ContractHandler.mint_tokens env (getKey fields "to_address").asStr
            amount = (Except.ok h, txs) →
        (app.mint_tokens env (some fields)).1 =
          resp200 [("transaction_hash", .str h),
                   ("to_address", getKey fields "to_address"),
                   ("amount", .num amount),
                   ("message",
                    .str "Mint transaction submitted successfully")]) ∧
    (∀ (env : Env) (fields : List (String × JValue)) (amount : PyFloat)
        (h : String) (txs : List BuiltTx),
        missingFields (some fields)
          ["from_address", "to_address", "amount", "private_key"] = false →
        ContractHandler.is_valid_address env (getKey fields "from_address") =
          true →
        ContractHandler.is_valid_address env (getKey fields "to_address") =
          true →
        amountCheck (getKey fields "amount") = some amount →
        ContractHandler.transfer_tokens env
            (getKey fields "from_address").asStr
            (getKey fields "to_address").asStr amount
            (getKey fields "private_key").asStr = (Except.ok h, txs) →
        (app.transfer_tokens env (some fields)).1 =
          resp200 [("transaction_hash", .str h),
                   ("from_address", getKey fields "from_address"),
                   ("to_address", getKey fields "to_address"),
                   ("amount", .num amount),
                   ("message",
                    .str "Transfer transaction submitted successfully")] ∧
        dataField (app.transfer_tokens env (some fields)).1 "private_key" =
          none) ∧
    (∀ (env : Env) (fields : List (String × JValue)) (amount : PyFloat)
        (h : String) (txs : List BuiltTx),
        missingFields (some fields) ["from_address", "amount", "private_key"]
          = false →
        ContractHandler.is_valid_address env (getKey fields "from_address") =
          true →
        amountCheck (getKey fields "amount") = some amount →
        ContractHandler.burn_tokens env (getKey fields "from_address").asStr
            amount (getKey fields "private_key").asStr =
          (Except.ok h, txs) →
        (app.burn_tokens env (some fields)).1 =
          resp200 [("transaction_hash", .str h),
                   ("from_address", getKey fields "from_address"),
                   ("amount", .num amount),
                   ("message",
                    .str "Burn transaction submitted successfully")] ∧
        dataField (app.burn_tokens env (some fields)).1 "private_key" =
          none) := by
  refine ⟨fun env fields amount h txs hmf hval hamt htx => ?_,
    fun env fields amount h txs hmf hv1 hv2 hamt htx => ?_,
    fun env fields amount h txs hmf hval hamt htx => ?_⟩
  · unfold app.mint_tokens
    dsimp only
    rw [hmf]
    simp only [Bool.false_eq_true, if_false, Option.getD_some]
    rw [hval]
    simp only [Bool.not_true, Bool.false_eq_true, if_false]
    rw [hamt]
    dsimp only
    rw [htx]
  · have hr : (app.transfer_tokens env (some fields)).1 =
        resp200 [("transaction_hash", .str h),
                 ("from_address", getKey fields "from_address"),
                 ("to_address", getKey fields "to_address"),
                 ("amount", .num amount),
                 ("message",
                  .str "Transfer transaction submitted successfully")] := by
      unfold app.transfer_tokens
      dsimp only
      rw [hmf]
      simp only [Bool.false_eq_true, if_false, Option.getD_some]
      rw [hv1]
      simp only [Bool.not_true, Bool.false_eq_true, if_false]
      rw [hv2]
      simp only [Bool.not_true, Bool.false_eq_true, if_false]
      rw [hamt]
      dsimp only
      rw [htx]
    exact ⟨hr, by rw [hr]; rfl⟩
  · have hr : (app.burn_tokens env (some fields)).1 =
        resp200 [("transaction_hash", .str h),
                 ("from_address", getKey fields "from_address"),
                 ("amount", .num amount),
                 ("message",
                  .str "Burn transaction submitted successfully")] := by
      unfold app.burn_tokens
      dsimp only
      rw [hmf]
      simp only [Bool.false_eq_true, if_false, Option.getD_some]
      rw [hval]
      simp only [Bool.not_true, Bool.false_eq_true, if_false]
      rw [hamt]
      dsimp only
      rw [htx]
    exact ⟨hr, by rw [hr]; rfl⟩


/-- C7 witness: the amended theorem at the concrete request
`reqTransfer5` in `envBase`. -/
theorem claim_C7_witness :
    (app.transfer_tokens envBase reqTransfer5).1 =
      resp200 [("transaction_hash", .str "0xhash"),
               ("from_address", .str "0xSender"),
               ("to_address", .str "0xTo"),
               ("amount", .num (PyFloat.finite 5)),
               ("message",
                .str "Transfer transaction submitted successfully")] ∧
    dataField (app.transfer_tokens envBase reqTransfer5).1 "private_key" =
      none :=
  claim_C7_amended.2.1 envBase
    [("from_address", .str "0xSender"), ("to_address", .str "0xTo"),
     ("amount", .str "5"), ("private_key", .str "0xKey")]
    (PyFloat.finite 5) "0xhash"
    (ContractHandler.transfer_tokens envBase "0xSender" "0xTo"
      (PyFloat.finite 5) "0xKey").2
    rfl rfl rfl rfl rfl

/-! ## Claim C1: 400 for validation failures, 500 otherwise -/

/-- C1 counterexample: a gas-estimate request whose `function_name` is
`approve` (none of mint/transfer/burn) is answered with HTTP 500, not
the claimed HTTP 400: the `ValueError` is raised inside the delegate
and caught by the handler's generic `except` clause. -/
theorem claim_C1_counterexample :
    app.estimate_gas envBase (some [("function_name", JValue.str "approve")])
      = resp500 "Unknown function: approve" ∧
    (resp500 "Unknown function: approve").status = 500 ∧
    (500 : ℕ) ≠ 400 :=
  ⟨rfl, rfl, by decide⟩

/-- C1 (amended): every handler answers 400 exactly when its own
pre-delegation validation fails (missing fields, invalid address,
invalid amount; only `function_name` presence for gas estimation), with
the fixed validation message as the `error` field; every failure raised
during delegation is answered 500 with the exception's string message —
in particular, a `function_name` that is none of mint/transfer/burn
raises `ValueError` inside the delegate and is answered 500 with
`Unknown function: <name>`, not 400. -/
theorem claim_C1_amended :
    (∀ env data, (app.mint_tokens env data).1.status = 400 ↔
      mintValidationFails env data = true) ∧
    (∀ env data, (app.transfer_tokens env data).1.status = 400 ↔
      transferValidationFails env data = true) ∧
    (∀ env data, (app.burn_tokens env data).1.status = 400 ↔
      burnValidationFails env data = true) ∧
    (∀ env a, (app.get_balance env a).status = 400 ↔
      env.isValidAddress a = false) ∧
    (∀ env data, (app.estimate_gas env data).status = 400 ↔
      missingFields data ["function_name"] = true) ∧
    (∀ env h, (app.get_transaction_status env h).status = 200) ∧
    (∀ env c, (app.get_token_info env c).status = 200 ∨
      (app.get_token_info env c).status = 500) ∧
    app.health_check.status = 200 ∧
    (∀ env data, (app.mint_tokens env data).1.status = 400 →
      ((app.mint_tokens env data).1 =
          resp400 "Missing required fields: to_address, amount" ∨
       (app.mint_tokens env data).1 = resp400 "Invalid recipient address" ∨
       (app.mint_tokens env data).1 = resp400 "Invalid amount")) ∧
    (∀ env data, (app.transfer_tokens env data).1.status = 400 →
      ((app.transfer_tokens env data).1 = resp400
          "Missing required fields: from_address, to_address, amount, private_key"
        ∨
       (app.transfer_tokens env data).1 = resp400 "Invalid sender address" ∨
       (app.transfer_tokens env data).1 = resp400 "Invalid recipient address"
        ∨
       (app.transfer_tokens env data).1 = resp400 "Invalid amount")) ∧
    (∀ env data, (app.burn_tokens env data).1.status = 400 →
      ((app.burn_tokens env data).1 = resp400
          "Missing required fields: from_address, amount, private_key" ∨
       (app.burn_tokens env data).1 = resp400 "Invalid address" ∨
       (app.burn_tokens env data).1 = resp400 "Invalid amount")) ∧
    (∀ env a, env.isValidAddress a = false →
      app.get_balance env a = resp400 "Invalid Ethereum address") ∧
    (∀ env fields amount e txs,
      missingFields (some fields) ["to_address", "amount"] = false →
      ContractHandler.is_valid_address env (getKey fields "to_address") = true
        →
      amountCheck (getKey fields "amount") = some amount →
      ContractHandler.mint_tokens env (getKey fields "to_address").asStr
        amount = (Except.error e, txs) →
      (app.mint_tokens env (some fields)).1 = resp500 e) ∧
    (∀ env fields amount e txs,
      missingFields (some fields)
        ["from_address", "to_address", "amount", "private_key"] = false →
      ContractHandler.is_valid_address env (getKey fields "from_address") =
        true →
      ContractHandler.is_valid_address env (getKey fields "to_address") = true
        →
      amountCheck (getKey fields "amount") = some amount →
      ContractHandler.transfer_tokens env
        (getKey fields "from_address").asStr
        (getKey fields "to_address").asStr amount
        (getKey fields "private_key").asStr = (Except.error e, txs) →
      (app.transfer_tokens env (some fields)).1 = resp500 e) ∧
    (∀ env fields amount e txs,
      missingFields (some fields) ["from_address", "amount", "private_key"] =
        false →
      ContractHandler.is_valid_address env (getKey fields "from_address") =
        true →
      amountCheck (getKey fields "amount") = some amount →
      ContractHandler.burn_tokens env (getKey fields "from_address").asStr
        amount (getKey fields "private_key").asStr = (Except.error e, txs) →
      (app.burn_tokens env (some fields)).1 = resp500 e) ∧
    (∀ env a e, env.isValidAddress a = true →
      ContractHandler.get_balance env a = Except.error e →
      app.get_balance env a = resp500 e) ∧
    (∀ env c e, ContractHandler.get_token_info env c = Except.error e →
      app.get_token_info env c = resp500 e) ∧
    (∀ env fields e, missingFields (some fields) ["function_name"] = false →
      app.paramsOf fields = Except.error e →
      app.estimate_gas env (some fields) = resp500 e) ∧
    (∀ env fields ps e,
      missingFields (some fields) ["function_name"] = false →
      app.paramsOf fields = Except.ok ps →
      ContractHandler.estimate_gas env (getKey fields "function_name") ps =
        Except.error e →
      app.estimate_gas env (some fields) = resp500 e) ∧
    (∀ env fields s ps,
      missingFields (some fields) ["function_name"] = false →
      getKey fields "function_name" = JValue.str s →
      ¬(s = "mint" ∨ s = "transfer" ∨ s = "burn") →
      app.paramsOf fields = Except.ok ps →
      app.estimate_gas env (some fields) =
        resp500 ("Unknown function: " ++ s)) :=
  ⟨fun env data => (mint_400_iff env data).1,
   fun env data => (transfer_400_iff env data).1,
   fun env data => (burn_400_iff env data).1,
   fun env a => (balance_400_iff env a).1,
   estimate_400_iff,
   fun _ _ => rfl,
   token_info_status,
   health_status,
   fun env data => (mint_400_iff env data).2.1,
   fun env data => (transfer_400_iff env data).2.1,
   fun env data => (burn_400_iff env data).2.1,
   fun env a => (balance_400_iff env a).2.1,
   mint_500_eq, transfer_500_eq, burn_500_eq,
   fun env a => (balance_400_iff env a).2.2,
   token_info_500_eq, estimate_params_500, estimate_err_500,
   estimate_unknown_500⟩

/-- C1 witness: the amended theorem's unknown-function component at a
concrete request. -/
theorem claim_C1_witness :
    app.estimate_gas envBase (some [("function_name", JValue.str "foo")]) =
      resp500 ("Unknown function: " ++ "foo") :=
  claim_C1_amended.2.2.2.2.2.2.2.2.2.2.2.2.2.2.2.2.2.2.2 envBase
    [("function_name", JValue.str "foo")] "foo" []
    rfl rfl (by simp) rfl

/-! ## Claim C2: validation before delegation -/

/-- C2 counterexample: a gas-estimate request whose params contain
invalid addresses and a negative amount is still delegated and answered
200 with the oracle's estimate, and a malformed transaction hash is
still delegated and answered 200 — refuting the claim that these two
endpoints validate their inputs before delegating. -/
theorem claim_C2_counterexample :
    app.estimate_gas envNoValid
        (some [("function_name", .str "transfer"),
               ("params", .obj [("to_address", .str "bogus"),
                                ("amount", .num (.finite (-5))),
                                ("from_address", .str "bogus")])]) =
      resp200 [("function_name", .str "transfer"),
               ("estimated_gas", .num (.finite 21000)),
               ("estimated_cost_eth",
                .str (ContractHandler.calculate_gas_cost envNoValid 21000))] ∧
    envNoValid.isValidAddress "bogus" = false ∧
    amountCheck (JValue.num (PyFloat.finite (-5))) = none ∧
    (app.get_transaction_status envNoValid "not-a-hash").status = 200 :=
  ⟨rfl, rfl, rfl, rfl⟩

/-- C2 (amended): the mint, transfer, burn and balance endpoints
validate presence and format before delegating and hand nothing to
sign-and-send when validation fails; the transaction-status endpoint
performs no validation of `tx_hash`, and the gas-estimate endpoint
checks only that `function_name` is present, delegating its params
without address or amount validation. -/
theorem claim_C2_amended :
    (∀ env data, mintValidationFails env data = true →
      (app.mint_tokens env data).2 = [] ∧
      (app.mint_tokens env data).1.status = 400) ∧
    (∀ env data, transferValidationFails env data = true →
      (app.transfer_tokens env data).2 = [] ∧
      (app.transfer_tokens env data).1.status = 400) ∧
    (∀ env data, burnValidationFails env data = true →
      (app.burn_tokens env data).2 = [] ∧
      (app.burn_tokens env data).1.status = 400) ∧
    (∀ env a, env.isValidAddress a = false →
      app.get_balance env a = resp400 "Invalid Ethereum address") ∧
    (∀ env h, (app.get_transaction_status env h).status = 200) ∧
    (∀ env fields, missingFields (some fields) ["function_name"] = false →
      (app.estimate_gas env (some fields)).status ≠ 400) :=
  ⟨fun env data hf =>
    ⟨(mint_400_iff env data).2.2 hf, (mint_400_iff env data).1.mpr hf⟩,
   fun env data hf =>
    ⟨(transfer_400_iff env data).2.2 hf,
     (transfer_400_iff env data).1.mpr hf⟩,
   fun env data hf =>
    ⟨(burn_400_iff env data).2.2 hf, (burn_400_iff env data).1.mpr hf⟩,
   fun env a => (balance_400_iff env a).2.1,
   fun _ _ => rfl,
   fun env fields hm h400 => by
    rw [estimate_400_iff, hm] at h400
    cases h400⟩

/-- C2 witness: the amended theorem's mint component at a concrete
invalid-address request. -/
theorem claim_C2_witness :
    (app.mint_tokens envNoValid
      (some [("to_address", JValue.str "bogus"),
             ("amount", JValue.str "5")])).2 = [] ∧
    (app.mint_tokens envNoValid
      (some [("to_address", JValue.str "bogus"),
             ("amount", JValue.str "5")])).1.status = 400 :=
  claim_C2_amended.1 envNoValid
    (some [("to_address", JValue.str "bogus"), ("amount", JValue.str "5")])
    rfl

/-! ## Claim C4: balance endpoint and Decimal precision -/

/-- C4 counterexample: with `balanceOf = 10^28 + 1` and `decimals = 0`,
the `balance` field denotes `10^28` (the quotient rounded to 28
significant digits by the default Decimal context), not the exact value
`10^28 + 1` — refuting "as an exact decimal string". -/
theorem claim_C4_counterexample :
    dataField (app.get_balance envBigBal "0xWhale") "balance" =
      some (JValue.dec ⟨10 ^ 27, 1⟩) ∧
    Dec.toRat ⟨10 ^ 27, 1⟩ ≠ ((10 ^ 28 + 1 : ℕ) : ℚ) / (10 : ℚ) ^ (0 : ℕ) ∧
    envBigBal.balanceOf "0xWhale" = Except.ok (10 ^ 28 + 1) ∧
    envBigBal.decimals = Except.ok 0 :=
  ⟨rfl, by norm_num [Dec.toRat], rfl, rfl⟩

/-- C4 (amended): `GET /api/balance/<address>` answers 400 with error
`Invalid Ethereum address` exactly when the address fails validation;
otherwise (when the contract calls succeed) it answers a success
envelope whose `balance` is `balanceOf / 10^decimals` as a `Decimal`
quotient rounded to 28 significant digits (exact whenever the raw
balance is below `10^28`), together with that value formatted to 4
decimal places. -/
theorem claim_C4_amended (env : Env) (a : String) :
    ((app.get_balance env a).status = 400 ∧
      (app.get_balance env a).body.lookup "error" =
        some (.str "Invalid Ethereum address") ↔
      env.isValidAddress a = false) ∧
    (∀ wei d, env.isValidAddress a = true →
      env.balanceOf a = Except.ok wei → env.decimals = Except.ok d →
      app.get_balance env a =
        resp200 [("address", .str a),
                 ("balance", .dec (decDivide 28 wei (10 ^ d))),
                 ("formatted_balance",
                  .str (formatFixed 4 (decDivide 28 wei (10 ^ d)).toRat))] ∧
      (wei < 10 ^ 28 →
        (decDivide 28 wei (10 ^ d)).toRat = (wei : ℚ) / (10 : ℚ) ^ d)) := by
  constructor
  · constructor
    · exact fun h => (balance_400_iff env a).1.mp h.1
    · intro hinv
      rw [(balance_400_iff env a).2.1 hinv]
      exact ⟨rfl, rfl⟩
  · intro wei d hv hb hd
    have hcb : ContractHandler.get_balance env a =
        Except.ok (decDivide 28 wei (10 ^ d)) := by
      unfold ContractHandler.get_balance
      rw [hb]
      simp only [Bind.bind, Except.bind]
      rw [hd]
      rfl
    constructor
    · unfold app.get_balance
      rw [hv]
      simp only [Bool.not_true, Bool.false_eq_true, if_false]
      rw [hcb]
    · exact fun hlt => decDivide_exact wei d hlt

/-- C4 witness: the amended theorem at `envBase` (balance 12345,
2 decimals), where the quotient 123.45 is exact. -/
theorem claim_C4_witness :
    app.get_balance envBase "0xAddr" =
      resp200 [("address", .str "0xAddr"),
               ("balance", .dec (decDivide 28 12345 (10 ^ 2))),
               ("formatted_balance",
                .str (formatFixed 4 (decDivide 28 12345 (10 ^ 2)).toRat))] ∧
    (decDivide 28 12345 (10 ^ 2)).toRat = (12345 : ℚ) / (10 : ℚ) ^ 2 :=
  ⟨((claim_C4_amended envBase "0xAddr").2 12345 2 rfl rfl rfl).1,
   ((claim_C4_amended envBase "0xAddr").2 12345 2 rfl rfl rfl).2
     (by norm_num)⟩

end CertApi
